import Mathlib

/-!
Verification development for the booking engine of the
sih-2025-jharkhand-tourism-backend repository.

The Mongoose model layer (src/models/bookings/Booking.model.ts), the booking
routes (src/routes/bookings/Bookings.route.ts) and the response utilities
(src/utils/response.utils.ts) are embedded directly from the source.  The
bookings controller and the validation schemas are not part of the source
tree; where a property depends on them, the missing orchestration is modelled
from the specification (sections 4.2 to 4.4) and marked as such in its doc
comment.

Calendar dates are embedded as integer milliseconds since the Unix epoch,
matching the JavaScript Date.getTime representation used by the pre-save
hook.  Monetary amounts and counts are embedded as integers.
-/

namespace Booking2Proof

/-- Listing type from Booking.model.ts: a booking targets a homestay or a
guide collection. -/
inductive ListingType where
  | homestay
  | guide
deriving DecidableEq, Repr

/-- Booking status lifecycle from Booking.model.ts. -/
inductive BookingStatus where
  | pending
  | confirmed
  | cancelled
  | completed
deriving DecidableEq, Repr

/-- Payment status from Booking.model.ts. -/
inductive PaymentStatus where
  | pending
  | completed
  | refunded
  | failed
deriving DecidableEq, Repr

/-- Guest count subdocument (guestCountSchema): adults required with min 1,
children optional with default 0, total optional and filled by the pre-save
hook. -/
structure GuestCount where
  adults : Int
  children : Option Int
  total : Option Int
deriving DecidableEq, Repr

/-- Guest contact details subdocument (guestDetailsSchema). -/
structure GuestDetails where
  name : String
  email : String
  phone : String
deriving DecidableEq, Repr

/-- Pricing subdocument (pricingSchema): basePrice and total required with
min 0, the three fees optional with min 0. -/
structure BookingPricing where
  basePrice : Int
  cleaningFee : Option Int
  serviceFee : Option Int
  taxes : Option Int
  total : Int
deriving DecidableEq, Repr

/-- A booking document as stored by the bookings collection.  The id field
stands for the Mongo object id of the document; dates are epoch
milliseconds. -/
structure Booking where
  id : Nat
  bookingNumber : String
  listingType : ListingType
  listingId : Nat
  listingTitle : Option String
  checkIn : Int
  checkOut : Int
  nights : Option Int
  guests : GuestCount
  guestDetails : GuestDetails
  specialRequests : Option String
  pricing : BookingPricing
  status : BookingStatus
  paymentStatus : PaymentStatus
  cancellationReason : Option String
  cancelledAt : Option Int
deriving DecidableEq, Repr

/-- Creation input type (CreateBookingInput in Booking.model.ts).  It has no
nights, status or paymentStatus field; guests may carry a caller-supplied
total because GuestCount exposes it. -/
structure CreateBookingInput where
  listingType : ListingType
  listingId : Nat
  checkIn : Int
  checkOut : Int
  guests : GuestCount
  guestDetails : GuestDetails
  specialRequests : Option String
  pricing : BookingPricing
deriving DecidableEq, Repr

/-- Error kinds of the reservation engine, from section 7 of the
specification. -/
inductive BookingError where
  | invalidDateRange
  | invalidGuestCount
  | invalidPricing
  | resourceNotFound
  | dateRangeConflict
  | notFound
  | illegalTransition
deriving DecidableEq, Repr

/-- JavaScript truthiness test on an optional number: undefined and 0 are
falsy.  Embeds the guards of the pre-save hook, which test a numeric field
with the logical-not operator. -/
def jsFalsy (v : Option Int) : Bool :=
  match v with
  | none => true
  | some x => x == 0

/-- Ceiling division of integers for a positive divisor, the embedding of
Math.ceil(diffTime / millisPerDay) in the pre-save hook. -/
def ceilDiv (a b : Int) : Int :=
  -(Int.ediv (-a) b)

/-- Milliseconds in one day, the 1000 * 60 * 60 * 24 constant of the
pre-save hook. -/
def millisPerDay : Int := 86400000

/-- First half of the pre-save hook of bookingSchema (Booking.model.ts
lines 448 to 452): nights is set to the ceiling of the day difference, but
only when the stored nights value is falsy. -/
def preSaveNights (b : Booking) : Booking :=
  if jsFalsy b.nights then
    { b with nights := some (ceilDiv (b.checkOut - b.checkIn) millisPerDay) }
  else b

/-- Second half of the pre-save hook (Booking.model.ts lines 459 to 461):
guests.total is set to adults plus children (children treated as 0 when
absent), but only when the stored total is falsy. -/
def preSaveGuests (b : Booking) : Booking :=
  if jsFalsy b.guests.total then
    { b with guests :=
        { b.guests with total := some (b.guests.adults + b.guests.children.getD 0) } }
  else b

/-- The pre-save hook of bookingSchema (Booking.model.ts lines 440 to 462),
run by Mongoose on every save. -/
def preSave (b : Booking) : Booking :=
  preSaveGuests (preSaveNights b)

/-- A booking blocks new reservations when its status is pending or
confirmed (the status $in filter of the availability query documented on
BookingModel in Booking.model.ts lines 478 to 488). -/
def isActive : BookingStatus → Bool
  | .pending => true
  | .confirmed => true
  | .cancelled => false
  | .completed => false

/-- One disjunct of the availability query of Booking.model.ts lines 480 to
486: an existing booking conflicts with a requested range when it is on the
same listing, has active status, its checkIn is strictly below the requested
checkOut and its checkOut is strictly above the requested checkIn. -/
def conflictsWith (b : Booking) (lid : Nat) (reqCheckIn reqCheckOut : Int) : Bool :=
  b.listingId == lid && isActive b.status &&
    decide (b.checkIn < reqCheckOut) && decide (reqCheckIn < b.checkOut)

/-- The availability check: some stored booking conflicts with the candidate
range (the findOne of the documented query returns a document). -/
def hasConflict (store : List Booking) (lid : Nat) (reqCheckIn reqCheckOut : Int) : Bool :=
  store.any (fun b => conflictsWith b lid reqCheckIn reqCheckOut)

/-- Validation performed by pricingSchema (Booking.model.ts lines 280 to
309): basePrice and total must be at least 0, and each fee or tax that is
present must be at least 0. -/
def validPricing (p : BookingPricing) : Bool :=
  decide (0 ≤ p.basePrice) &&
  p.cleaningFee.all (fun x => decide (0 ≤ x)) &&
  p.serviceFee.all (fun x => decide (0 ≤ x)) &&
  p.taxes.all (fun x => decide (0 ≤ x)) &&
  decide (0 ≤ p.total)

/-- Build the document handed to the model from the creation input: schema
defaults status and paymentStatus to pending and children to 0, nights is
absent from the input, and the guest email is lowercased by the schema.  The
listing title snapshot is not set by any code in the model. -/
def mkDoc (nid : Nat) (bn : String) (inp : CreateBookingInput) : Booking :=
  { id := nid
    bookingNumber := bn
    listingType := inp.listingType
    listingId := inp.listingId
    listingTitle := none
    checkIn := inp.checkIn
    checkOut := inp.checkOut
    nights := none
    guests :=
      { adults := inp.guests.adults
        children := some (inp.guests.children.getD 0)
        total := inp.guests.total }
    guestDetails := { inp.guestDetails with email := inp.guestDetails.email.toLower }
    specialRequests := inp.specialRequests
    pricing := inp.pricing
    status := .pending
    paymentStatus := .pending
    cancellationReason := none
    cancelledAt := none }

/-- Modelled from the spec: the createBooking orchestration of the bookings
controller, which is not part of the source tree.  Follows section 4.4
steps 1 (date order), 2 (adult count), 3 (pricing, embedded from
pricingSchema), 4 (resource existence via the registry), and 7 (conflict
check against the store using the availability query documented in
Booking.model.ts, then insert with the schema defaults and the pre-save
hook from the source).  The booking id and booking number are supplied by
the environment. -/
def createBooking (reg : ListingType → Nat → Bool) (nid : Nat) (bn : String)
    (store : List Booking) (inp : CreateBookingInput) :
    Except BookingError Booking × List Booking :=
  if ¬ inp.checkIn < inp.checkOut then
    (.error .invalidDateRange, store)
  else if inp.guests.adults < 1 then
    (.error .invalidGuestCount, store)
  else if ¬ validPricing inp.pricing then
    (.error .invalidPricing, store)
  else if ¬ reg inp.listingType inp.listingId then
    (.error .resourceNotFound, store)
  else if hasConflict store inp.listingId inp.checkIn inp.checkOut then
    (.error .dateRangeConflict, store)
  else
    (.ok (preSave (mkDoc nid bn inp)), preSave (mkDoc nid bn inp) :: store)

/-- The cancellation update applied to a stored booking: status becomes
cancelled, cancelledAt is stamped, the reason is recorded. -/
def cancelApply (reason : Option String) (now : Int) (b : Booking) : Booking :=
  { b with status := .cancelled, cancelledAt := some now, cancellationReason := reason }

/-- Pointwise store update for a cancellation: the matching active booking
is cancelled, everything else is untouched. -/
def cancelOne (bid : Nat) (reason : Option String) (now : Int) (b : Booking) : Booking :=
  if b.id == bid && isActive b.status then cancelApply reason now b else b

/-- Modelled from the spec: the cancelBooking orchestration of the bookings
controller, which is not part of the source tree.  Follows section 4.4:
load by id (NotFound when absent), reject with IllegalTransition unless the
status is pending or confirmed, otherwise persist status cancelled with
cancelledAt and the optional reason. -/
def cancelBooking (store : List Booking) (bid : Nat) (reason : Option String)
    (now : Int) : Except BookingError Booking × List Booking :=
  match store.find? (fun b => b.id == bid) with
  | none => (.error .notFound, store)
  | some b =>
    if isActive b.status then
      (.ok (cancelApply reason now b), store.map (cancelOne bid reason now))
    else
      (.error .illegalTransition, store)

/-- Pointwise store update for a confirmation: a matching pending booking
becomes confirmed. -/
def confirmOne (bid : Nat) (b : Booking) : Booking :=
  if b.id == bid && b.status == .pending then { b with status := .confirmed } else b

/-- Modelled from the spec: the confirm transition of the lifecycle of
section 4.3 (pending to confirmed, IllegalTransition otherwise).  No route
of the repository exposes it; it is included so that reachable stores cover
confirmed bookings. -/
def confirmBooking (store : List Booking) (bid : Nat) :
    Except BookingError Booking × List Booking :=
  match store.find? (fun b => b.id == bid) with
  | none => (.error .notFound, store)
  | some b =>
    if b.status == .pending then
      (.ok { b with status := .confirmed }, store.map (confirmOne bid))
    else
      (.error .illegalTransition, store)

/-- Pointwise store update for completion: a matching confirmed booking
becomes completed. -/
def completeOne (bid : Nat) (b : Booking) : Booking :=
  if b.id == bid && b.status == .confirmed then { b with status := .completed } else b

/-- Modelled from the spec: the complete transition of the lifecycle of
section 4.3 (confirmed to completed, IllegalTransition otherwise). -/
def completeBooking (store : List Booking) (bid : Nat) :
    Except BookingError Booking × List Booking :=
  match store.find? (fun b => b.id == bid) with
  | none => (.error .notFound, store)
  | some b =>
    if b.status == .confirmed then
      (.ok { b with status := .completed }, store.map (completeOne bid))
    else
      (.error .illegalTransition, store)

/-- Two stored bookings respect the no-double-booking invariant: when they
are on the same resource and both are active, their half-open date ranges
do not overlap. -/
def noConflict (b1 b2 : Booking) : Prop :=
  b1.listingType = b2.listingType → b1.listingId = b2.listingId →
  isActive b1.status = true → isActive b2.status = true →
  ¬ (b1.checkIn < b2.checkOut ∧ b2.checkIn < b1.checkOut)

/-- A store is overlap free when every pair of distinct stored bookings
respects noConflict. -/
def OverlapFree (store : List Booking) : Prop :=
  store.Pairwise noConflict

/-- Boolean mirror of noConflict, used for concrete evaluation. -/
def noConflictB (b1 b2 : Booking) : Bool :=
  !(b1.listingType == b2.listingType && b1.listingId == b2.listingId &&
    isActive b1.status && isActive b2.status &&
    decide (b1.checkIn < b2.checkOut) && decide (b2.checkIn < b1.checkOut))

/-- Boolean mirror of OverlapFree. -/
def overlapFreeB : List Booking → Bool
  | [] => true
  | b :: rest => rest.all (noConflictB b) && overlapFreeB rest

/-- Reachable states of the booking store: starting from the empty
collection, any sequence of creations, cancellations, confirmations and
completions, with arbitrary environments (registry, ids, booking numbers,
clock). -/
inductive Reachable (reg : ListingType → Nat → Bool) : List Booking → Prop where
  | empty : Reachable reg []
  | create (s : List Booking) (nid : Nat) (bn : String) (inp : CreateBookingInput) :
      Reachable reg s → Reachable reg (createBooking reg nid bn s inp).2
  | cancel (s : List Booking) (bid : Nat) (reason : Option String) (now : Int) :
      Reachable reg s → Reachable reg (cancelBooking s bid reason now).2
  | confirm (s : List Booking) (bid : Nat) :
      Reachable reg s → Reachable reg (confirmBooking s bid).2
  | complete (s : List Booking) (bid : Nat) :
      Reachable reg s → Reachable reg (completeBooking s bid).2

/-- From the source: the availability index
bookingSchema.index with keys listingId, checkIn, checkOut
(Booking.model.ts line 416) is declared without the unique option, and no
other exclusion constraint or transaction appears anywhere in the schema,
so the collection refuses no insert on grounds of a date-range conflict. -/
def availabilityIndexUnique : Bool := false

/-- Modelled from the spec: the pre-check phase of the sequential
check-then-insert described by the design notes of section 9 for the
original controller.  All input validations and the availability query run
against a snapshot of the store. -/
def preCheckPasses (reg : ListingType → Nat → Bool) (s : List Booking)
    (inp : CreateBookingInput) : Bool :=
  decide (inp.checkIn < inp.checkOut) && decide (1 ≤ inp.guests.adults) &&
  validPricing inp.pricing && reg inp.listingType inp.listingId &&
  !(hasConflict s inp.listingId inp.checkIn inp.checkOut)

/-- Modelled from the spec: the insert phase of the check-then-insert.  An
insert is refused only by a backing uniqueness or exclusion constraint;
since availabilityIndexUnique is false for this schema, the insert always
commits. -/
def insertPhase (nid : Nat) (bn : String) (s : List Booking)
    (inp : CreateBookingInput) : List Booking :=
  if availabilityIndexUnique && hasConflict s inp.listingId inp.checkIn inp.checkOut then
    s
  else
    preSave (mkDoc nid bn inp) :: s

/-- Modelled from the spec: the interleaving of two concurrent
createBooking calls in which both pre-checks read the store before either
insert commits (check A, check B, insert A, insert B).  Returns whether
call A passed its pre-check, whether call B passed its pre-check, and the
final store. -/
def raceCheckCheckInsertInsert (reg : ListingType → Nat → Bool)
    (s : List Booking) (a b : CreateBookingInput) :
    Bool × Bool × List Booking :=
  let okA := preCheckPasses reg s a
  let okB := preCheckPasses reg s b
  let s1 := if okA then insertPhase 1 "BK-RACE-A" s a else s
  let s2 := if okB then insertPhase 2 "BK-RACE-B" s1 b else s1
  (okA, okB, s2)

/-- Characters skipped by the JavaScript parseInt before reading digits. -/
def isSpaceChar (c : Char) : Bool :=
  c == ' ' || c == '\t' || c == '\n' || c == '\r'

/-- Value of a list of decimal digit characters. -/
def digitsToNat (ds : List Char) : Nat :=
  ds.foldl (fun n c => n * 10 + (c.toNat - 48)) 0

/-- JavaScript parseInt with radix 10: skip leading whitespace, read an
optional sign, then the longest prefix of decimal digits; none stands for
NaN (no digits found). -/
def jsParseInt (s : String) : Option Int :=
  let cs := s.data.dropWhile isSpaceChar
  match cs with
  | '-' :: rest =>
    let ds := rest.takeWhile Char.isDigit
    if ds.isEmpty then none else some (-(digitsToNat ds : Int))
  | '+' :: rest =>
    let ds := rest.takeWhile Char.isDigit
    if ds.isEmpty then none else some ((digitsToNat ds : Int))
  | _ =>
    let ds := cs.takeWhile Char.isDigit
    if ds.isEmpty then none else some ((digitsToNat ds : Int))

/-- JavaScript logical-or fallback on a parsed number: NaN and 0 are falsy
and yield the fallback value. -/
def jsOrInt (v : Option Int) (d : Int) : Int :=
  match v with
  | none => d
  | some x => if x = 0 then d else x

/-- JavaScript logical-or fallback on an optional string: undefined and the
empty string are falsy and yield the fallback value. -/
def jsOrStr (v : Option String) (d : String) : String :=
  match v with
  | none => d
  | some s => if s = "" then d else s

/-- parsePaginationParams from response.utils.ts lines 114 to 123:
parsedPage is max(1, parseInt(page or the string 1, 10) or 1) and
parsedLimit is min(100, max(1, parseInt(limit or String(defaultLimit), 10)
or defaultLimit)). -/
def parsePaginationParams (page limit : Option String) (defaultLimit : Int) :
    Int × Int :=
  let parsedPage := max 1 (jsOrInt (jsParseInt (jsOrStr page "1")) 1)
  let parsedLimit :=
    min 100 (max 1 (jsOrInt (jsParseInt (jsOrStr limit (toString defaultLimit))) defaultLimit))
  (parsedPage, parsedLimit)

/-- Registry fixture: every resource exists. -/
def reg0 : ListingType → Nat → Bool := fun _ _ => true

/-- Epoch milliseconds of 2024-03-15T00:00:00Z. -/
def d0315 : Int := 1710460800000

/-- Epoch milliseconds of 2024-03-18T00:00:00Z. -/
def d0318 : Int := 1710720000000

/-- Epoch milliseconds of 2024-03-20T00:00:00Z. -/
def d0320 : Int := 1710892800000

/-- Epoch milliseconds of 2024-03-21T00:00:00Z. -/
def d0321 : Int := 1710979200000

/-- Guest contact fixture. -/
def contact0 : GuestDetails :=
  { name := "John Doe", email := "John@Example.com", phone := "+911234567890" }

/-- Pricing fixture matching the example of Booking.model.ts. -/
def pricing0 : BookingPricing :=
  { basePrice := 4500, cleaningFee := none, serviceFee := none, taxes := none,
    total := 5000 }

/-- Creation fixture: listing 7, stay 2024-03-15 to 2024-03-18, two adults
and one child, no caller-supplied total. -/
def inpA : CreateBookingInput :=
  { listingType := .homestay, listingId := 7, checkIn := d0315, checkOut := d0318,
    guests := { adults := 2, children := some 1, total := none },
    guestDetails := contact0, specialRequests := none, pricing := pricing0 }

/-- Back-to-back creation fixture: same listing, stay 2024-03-18 to
2024-03-21, starting exactly on the checkout day of inpA. -/
def inpB : CreateBookingInput :=
  { inpA with checkIn := d0318, checkOut := d0321 }

/-- Overlapping creation fixture: same listing, stay 2024-03-15 to
2024-03-20, overlapping inpA. -/
def inpOverlapA : CreateBookingInput :=
  { inpA with checkIn := d0315, checkOut := d0320 }

/-- Invalid-dates fixture: checkIn strictly after checkOut. -/
def inpBadDates : CreateBookingInput :=
  { inpA with checkIn := d0318, checkOut := d0315 }

/-- Inconsistent-guests fixture: caller supplies total 50 although adults
plus children is 3. -/
def inpTot50 : CreateBookingInput :=
  { inpA with guests := { adults := 2, children := some 1, total := some 50 } }

/-- A stored pending booking with id 5, used for cancellation scenarios. -/
def bk5 : Booking := preSave (mkDoc 5 "BK-2024-0005" inpA)

theorem preSaveNights_core (b : Booking) :
    (preSaveNights b).listingType = b.listingType ∧
    (preSaveNights b).listingId = b.listingId ∧
    (preSaveNights b).checkIn = b.checkIn ∧
    (preSaveNights b).checkOut = b.checkOut ∧
    (preSaveNights b).status = b.status ∧
    (preSaveNights b).paymentStatus = b.paymentStatus ∧
    (preSaveNights b).pricing = b.pricing := by
  unfold preSaveNights
  split <;> exact ⟨rfl, rfl, rfl, rfl, rfl, rfl, rfl⟩

theorem preSaveGuests_core (b : Booking) :
    (preSaveGuests b).listingType = b.listingType ∧
    (preSaveGuests b).listingId = b.listingId ∧
    (preSaveGuests b).checkIn = b.checkIn ∧
    (preSaveGuests b).checkOut = b.checkOut ∧
    (preSaveGuests b).status = b.status ∧
    (preSaveGuests b).paymentStatus = b.paymentStatus ∧
    (preSaveGuests b).pricing = b.pricing := by
  unfold preSaveGuests
  split <;> exact ⟨rfl, rfl, rfl, rfl, rfl, rfl, rfl⟩

theorem preSave_core (b : Booking) :
    (preSave b).listingType = b.listingType ∧
    (preSave b).listingId = b.listingId ∧
    (preSave b).checkIn = b.checkIn ∧
    (preSave b).checkOut = b.checkOut ∧
    (preSave b).status = b.status ∧
    (preSave b).paymentStatus = b.paymentStatus ∧
    (preSave b).pricing = b.pricing := by
  have hg := preSaveGuests_core (preSaveNights b)
  have hn := preSaveNights_core b
  unfold preSave
  exact ⟨hg.1.trans hn.1, hg.2.1.trans hn.2.1, hg.2.2.1.trans hn.2.2.1,
    hg.2.2.2.1.trans hn.2.2.2.1, hg.2.2.2.2.1.trans hn.2.2.2.2.1,
    hg.2.2.2.2.2.1.trans hn.2.2.2.2.2.1, hg.2.2.2.2.2.2.trans hn.2.2.2.2.2.2⟩

theorem validPricing_spec (p : BookingPricing) :
    validPricing p = true ↔
      (0 ≤ p.basePrice ∧ (∀ x, p.cleaningFee = some x → 0 ≤ x) ∧
       (∀ x, p.serviceFee = some x → 0 ≤ x) ∧ (∀ x, p.taxes = some x → 0 ≤ x) ∧
       0 ≤ p.total) := by
  unfold validPricing
  cases p.cleaningFee <;> cases p.serviceFee <;> cases p.taxes <;>
    simp [Bool.and_eq_true, decide_eq_true_iff, Option.all] <;> tauto

/-- C4: for a document with nights unset, the pre-save hook computes nights
as the ceiling of the day difference (2024-03-15 to 2024-03-18 gives 3);
but a document arriving at save with nights already set to 99 keeps 99,
although 99 diverges from the dates, contradicting the in-file comments
that nights is always consistent with the dates. -/
theorem nights_hook_keeps_preset_value :
    (preSave (mkDoc 31 "BK-2024-0031" inpA)).nights = some 3 ∧
    (preSave { mkDoc 31 "BK-2024-0031" inpA with nights := some 99 }).nights = some 99 ∧
    ((99 : Int) ≠ 3) := by
  refine ⟨by decide, by decide, by decide⟩

/-- C5: the pre-save hook derives guests.total as adults plus children only
when the caller left total unset (2 adults and 1 child give 3); a
caller-supplied total of 50 with 2 adults and 1 child is kept and persists
through a successful createBooking, contradicting the in-file comments that
total is calculated as adults plus children. -/
theorem guests_total_keeps_caller_value :
    (preSave (mkDoc 41 "BK-2024-0041" inpTot50)).guests.total = some 50 ∧
    inpTot50.guests.adults + inpTot50.guests.children.getD 0 = 3 ∧
    (createBooking reg0 41 "BK-2024-0041" [] inpTot50).1 =
      .ok (preSave (mkDoc 41 "BK-2024-0041" inpTot50)) ∧
    (preSave (mkDoc 42 "BK-2024-0042" inpA)).guests.total = some 3 := by
  refine ⟨by decide, by decide, rfl, by decide⟩

/-- C6: a creation request whose checkIn is not strictly before checkOut
fails with InvalidDateRange and leaves the store unchanged. -/
theorem create_invalid_date_range (reg : ListingType → Nat → Bool) (nid : Nat)
    (bn : String) (s : List Booking) (inp : CreateBookingInput)
    (h : inp.checkOut ≤ inp.checkIn) :
    createBooking reg nid bn s inp = (.error .invalidDateRange, s) := by
  unfold createBooking
  rw [if_pos (not_lt.mpr h)]

theorem create_invalid_date_range_witness :
    createBooking reg0 61 "BK-2024-0061" [] inpBadDates =
      (.error .invalidDateRange, []) :=
  create_invalid_date_range reg0 61 "BK-2024-0061" [] inpBadDates (by decide)

/-- C9: every successful createBooking persists the booking with status
pending and paymentStatus pending (the schema defaults; the creation input
type carries neither field). -/
theorem create_success_pending (reg : ListingType → Nat → Bool) (nid : Nat)
    (bn : String) (s : List Booking) (inp : CreateBookingInput) (b : Booking)
    (h : (createBooking reg nid bn s inp).1 = .ok b) :
    b.status = .pending ∧ b.paymentStatus = .pending := by
  unfold createBooking at h
  split at h
  · simp at h
  split at h
  · simp at h
  split at h
  · simp at h
  split at h
  · simp at h
  split at h
  · simp at h
  · simp only [] at h
    have hb : preSave (mkDoc nid bn inp) = b := by
      exact Except.ok.inj h
    subst hb
    exact ⟨(preSave_core _).2.2.2.2.1, (preSave_core _).2.2.2.2.2.1⟩

theorem create_success_pending_witness :
    (preSave (mkDoc 91 "BK-2024-0091" inpA)).status = .pending ∧
    (preSave (mkDoc 91 "BK-2024-0091" inpA)).paymentStatus = .pending :=
  create_success_pending reg0 91 "BK-2024-0091" [] inpA
    (preSave (mkDoc 91 "BK-2024-0091" inpA)) rfl

/-- C2: the availability test is the strict half-open interval test: a
stored booking conflicts with a requested range exactly when it is on the
requested listing, is active, and each range starts strictly before the
other ends; a pair where one checkOut equals the other checkIn never
conflicts, and the back-to-back creations 2024-03-15 to 2024-03-18 followed
by 2024-03-18 to 2024-03-21 on the same listing both succeed. -/
theorem overlap_test_half_open (b : Booking) (lid : Nat) (ci co : Int) :
    (conflictsWith b lid ci co = true ↔
      (b.listingId = lid ∧ isActive b.status = true ∧ b.checkIn < co ∧ ci < b.checkOut))
  ∧ (b.checkOut = ci ∨ co = b.checkIn → conflictsWith b lid ci co = false)
  ∧ (createBooking reg0 11 "BK-A" [] inpA).1.isOk = true
  ∧ (createBooking reg0 12 "BK-B" (createBooking reg0 11 "BK-A" [] inpA).2 inpB).1.isOk
      = true := by
  refine ⟨?_, ?_, rfl, rfl⟩
  · unfold conflictsWith
    simp only [Bool.and_eq_true, beq_iff_eq, decide_eq_true_iff]
    tauto
  · intro h
    unfold conflictsWith
    rcases h with h | h
    · rw [h]
      simp
    · rw [h]
      simp

theorem overlap_test_half_open_witness :
    conflictsWith (preSave (mkDoc 11 "BK-A" inpA)) 7 d0318 d0321 = false :=
  (overlap_test_half_open (preSave (mkDoc 11 "BK-A" inpA)) 7 d0318 d0321).2.1
    (Or.inl rfl)

/-- C3: the repository backs the conflict check with no storage-level
guarantee: the availability index is not unique and the check-then-insert
is not atomic, so in the interleaving where two concurrent createBooking
calls for the same listing and overlapping ranges both pass the pre-check
before either insert commits, both calls succeed and the persisted store
holds two overlapping active bookings, violating the no-double-booking
invariant. -/
theorem race_double_booking :
    availabilityIndexUnique = false ∧
    (raceCheckCheckInsertInsert reg0 [] inpA inpOverlapA).1 = true ∧
    (raceCheckCheckInsertInsert reg0 [] inpA inpOverlapA).2.1 = true ∧
    overlapFreeB (raceCheckCheckInsertInsert reg0 [] inpA inpOverlapA).2.2 = false := by
  refine ⟨rfl, by decide, by decide, by decide⟩

/-- C8: a successful creation persists the caller-supplied pricing
subdocument unchanged (no recomputation of total from the components) with
a non-negative total; and once the date and guest validations pass, a
request whose total, base price, or any present fee or tax is negative is
rejected with InvalidPricing and the store is unchanged. -/
theorem create_pricing_validation (reg : ListingType → Nat → Bool) (nid : Nat)
    (bn : String) (s : List Booking) (inp : CreateBookingInput) (b : Booking) :
    ((createBooking reg nid bn s inp).1 = .ok b →
      b.pricing = inp.pricing ∧ 0 ≤ b.pricing.total)
  ∧ (inp.checkIn < inp.checkOut → 1 ≤ inp.guests.adults →
      (inp.pricing.total < 0 ∨ inp.pricing.basePrice < 0 ∨
       (∃ x, inp.pricing.cleaningFee = some x ∧ x < 0) ∨
       (∃ x, inp.pricing.serviceFee = some x ∧ x < 0) ∨
       (∃ x, inp.pricing.taxes = some x ∧ x < 0)) →
      createBooking reg nid bn s inp = (.error .invalidPricing, s)) := by
  constructor
  · intro h
    unfold createBooking at h
    split at h
    · simp at h
    split at h
    · simp at h
    split at h
    · simp at h
    rename_i hvp
    split at h
    · simp at h
    split at h
    · simp at h
    · have hb : preSave (mkDoc nid bn inp) = b := Except.ok.inj h
      subst hb
      have hpr : (preSave (mkDoc nid bn inp)).pricing = inp.pricing :=
        (preSave_core _).2.2.2.2.2.2
      refine ⟨hpr, ?_⟩
      rw [hpr]
      have hv : validPricing inp.pricing = true := not_not.mp hvp
      exact ((validPricing_spec inp.pricing).mp hv).2.2.2.2
  · intro h1 h2 hneg
    have hvp : ¬ validPricing inp.pricing = true := by
      intro hv
      have hs := (validPricing_spec inp.pricing).mp hv
      rcases hneg with hx | hx | ⟨x, hx, hxn⟩ | ⟨x, hx, hxn⟩ | ⟨x, hx, hxn⟩
      · exact absurd hs.2.2.2.2 (not_le.mpr hx)
      · exact absurd hs.1 (not_le.mpr hx)
      · exact absurd (hs.2.1 x hx) (not_le.mpr hxn)
      · exact absurd (hs.2.2.1 x hx) (not_le.mpr hxn)
      · exact absurd (hs.2.2.2.1 x hx) (not_le.mpr hxn)
    unfold createBooking
    rw [if_neg (not_not_intro h1), if_neg (not_lt.mpr h2), if_pos hvp]

theorem create_pricing_validation_witness :
    (preSave (mkDoc 81 "BK-2024-0081" inpA)).pricing = inpA.pricing ∧
    0 ≤ (preSave (mkDoc 81 "BK-2024-0081" inpA)).pricing.total :=
  (create_pricing_validation reg0 81 "BK-2024-0081" [] inpA
    (preSave (mkDoc 81 "BK-2024-0081" inpA))).1 rfl

theorem cancelOne_id (bid : Nat) (r : Option String) (t : Int) (b : Booking) :
    (cancelOne bid r t b).id = b.id := by
  unfold cancelOne cancelApply
  split <;> rfl

/-- C7: when the stored booking is cancelled or completed, cancelBooking
fails with IllegalTransition and leaves the store unchanged; when it is
active, cancellation succeeds stamping cancelledAt, and a second
cancellation of the same id fails with IllegalTransition leaving the store,
and in particular the stamped cancelledAt, unchanged. -/
theorem cancel_terminal_and_idempotent (s : List Booking) (b : Booking) (bid : Nat)
    (r1 r2 : Option String) (t1 t2 : Int)
    (hfind : s.find? (fun x => x.id == bid) = some b) :
    (isActive b.status = false →
      cancelBooking s bid r1 t1 = (.error .illegalTransition, s))
  ∧ (isActive b.status = true →
      (cancelBooking s bid r1 t1).1 = .ok (cancelApply r1 t1 b) ∧
      (cancelApply r1 t1 b).status = .cancelled ∧
      (cancelApply r1 t1 b).cancelledAt = some t1 ∧
      (cancelBooking s bid r1 t1).2.find? (fun x => x.id == bid) =
        some (cancelApply r1 t1 b) ∧
      cancelBooking (cancelBooking s bid r1 t1).2 bid r2 t2 =
        (.error .illegalTransition, (cancelBooking s bid r1 t1).2)) := by
  have hbid : (b.id == bid) = true := by
    have h0 := List.find?_some hfind
    exact h0
  constructor
  · intro hterm
    unfold cancelBooking
    simp only [hfind]
    rw [if_neg (by rw [hterm]; exact Bool.false_ne_true)]
  · intro hact
    have hrun : cancelBooking s bid r1 t1 =
        (.ok (cancelApply r1 t1 b), s.map (cancelOne bid r1 t1)) := by
      unfold cancelBooking
      simp only [hfind]
      rw [if_pos hact]
    have hmapfind : (s.map (cancelOne bid r1 t1)).find? (fun x => x.id == bid) =
        some (cancelApply r1 t1 b) := by
      rw [List.find?_map]
      have hcomp : ((fun x => x.id == bid) ∘ (cancelOne bid r1 t1)) =
          (fun x => x.id == bid) := by
        funext x
        simp [Function.comp, cancelOne_id]
      rw [hcomp, hfind]
      have hcond : (b.id == bid && isActive b.status) = true := by
        rw [hbid, hact]
        rfl
      simp only [Option.map_some']
      unfold cancelOne
      rw [if_pos hcond]
    have hsecond : cancelBooking (s.map (cancelOne bid r1 t1)) bid r2 t2 =
        (.error .illegalTransition, s.map (cancelOne bid r1 t1)) := by
      unfold cancelBooking
      simp only [hmapfind]
      rw [if_neg (fun hx => Bool.noConfusion hx)]
    refine ⟨by rw [hrun], rfl, rfl, ?_, ?_⟩
    · rw [hrun]
      exact hmapfind
    · rw [hrun]
      exact hsecond

theorem cancel_terminal_and_idempotent_witness :
    (cancelBooking [bk5] 5 (some "change of plans") 1710000000000).1 =
      .ok (cancelApply (some "change of plans") 1710000000000 bk5) ∧
    (cancelApply (some "change of plans") 1710000000000 bk5).status = .cancelled ∧
    (cancelApply (some "change of plans") 1710000000000 bk5).cancelledAt =
      some 1710000000000 ∧
    (cancelBooking [bk5] 5 (some "change of plans") 1710000000000).2.find?
        (fun x => x.id == 5) =
      some (cancelApply (some "change of plans") 1710000000000 bk5) ∧
    cancelBooking (cancelBooking [bk5] 5 (some "change of plans") 1710000000000).2
        5 none 1710100000000 =
      (.error .illegalTransition,
        (cancelBooking [bk5] 5 (some "change of plans") 1710000000000).2) :=
  (cancel_terminal_and_idempotent [bk5] bk5 5 (some "change of plans") none
    1710000000000 1710100000000 rfl).2 rfl

theorem overlapFree_map (s : List Booking) (f : Booking → Booking)
    (hty : ∀ b, (f b).listingType = b.listingType)
    (hid : ∀ b, (f b).listingId = b.listingId)
    (hci : ∀ b, (f b).checkIn = b.checkIn)
    (hco : ∀ b, (f b).checkOut = b.checkOut)
    (hact : ∀ b, isActive (f b).status = true → isActive b.status = true)
    (h : OverlapFree s) : OverlapFree (s.map f) := by
  refine List.Pairwise.map f (fun a b hab => ?_) h
  intro h1 h2 h3 h4 h5
  rw [hty a, hty b] at h1
  rw [hid a, hid b] at h2
  rw [hci a, hco b, hci b, hco a] at h5
  exact hab h1 h2 (hact a h3) (hact b h4) h5

theorem overlapFree_create (reg : ListingType → Nat → Bool) (nid : Nat)
    (bn : String) (s : List Booking) (inp : CreateBookingInput)
    (h : OverlapFree s) : OverlapFree (createBooking reg nid bn s inp).2 := by
  unfold createBooking
  split
  · exact h
  split
  · exact h
  split
  · exact h
  split
  · exact h
  split
  · exact h
  rename_i hconf
  show OverlapFree (preSave (mkDoc nid bn inp) :: s)
  refine List.pairwise_cons.mpr ⟨?_, h⟩
  intro b2 hb2 hty hid hact1 hact2 hov
  apply hconf
  unfold hasConflict
  rw [List.any_eq_true]
  refine ⟨b2, hb2, ?_⟩
  unfold conflictsWith
  have hlid : (preSave (mkDoc nid bn inp)).listingId = inp.listingId :=
    (preSave_core _).2.1
  have hcin : (preSave (mkDoc nid bn inp)).checkIn = inp.checkIn :=
    (preSave_core _).2.2.1
  have hcout : (preSave (mkDoc nid bn inp)).checkOut = inp.checkOut :=
    (preSave_core _).2.2.2.1
  simp only [Bool.and_eq_true, beq_iff_eq, decide_eq_true_iff]
  refine ⟨⟨⟨?_, hact2⟩, ?_⟩, ?_⟩
  · rw [← hid]
    exact hlid
  · rw [← hcout]
    exact hov.2
  · rw [← hcin]
    exact hov.1

theorem cancelOne_core (bid : Nat) (r : Option String) (t : Int) (b : Booking) :
    (cancelOne bid r t b).listingType = b.listingType ∧
    (cancelOne bid r t b).listingId = b.listingId ∧
    (cancelOne bid r t b).checkIn = b.checkIn ∧
    (cancelOne bid r t b).checkOut = b.checkOut := by
  unfold cancelOne cancelApply
  split <;> exact ⟨rfl, rfl, rfl, rfl⟩

theorem cancelOne_active (bid : Nat) (r : Option String) (t : Int) (b : Booking) :
    isActive (cancelOne bid r t b).status = true → isActive b.status = true := by
  unfold cancelOne cancelApply
  split
  · intro hx
    exact Bool.noConfusion hx
  · exact id

theorem confirmOne_core (bid : Nat) (b : Booking) :
    (confirmOne bid b).listingType = b.listingType ∧
    (confirmOne bid b).listingId = b.listingId ∧
    (confirmOne bid b).checkIn = b.checkIn ∧
    (confirmOne bid b).checkOut = b.checkOut := by
  unfold confirmOne
  split <;> exact ⟨rfl, rfl, rfl, rfl⟩

theorem confirmOne_active (bid : Nat) (b : Booking) :
    isActive (confirmOne bid b).status = true → isActive b.status = true := by
  unfold confirmOne
  split
  · rename_i hcond
    intro _
    simp only [Bool.and_eq_true, beq_iff_eq] at hcond
    rw [hcond.2]
    rfl
  · exact id

theorem completeOne_core (bid : Nat) (b : Booking) :
    (completeOne bid b).listingType = b.listingType ∧
    (completeOne bid b).listingId = b.listingId ∧
    (completeOne bid b).checkIn = b.checkIn ∧
    (completeOne bid b).checkOut = b.checkOut := by
  unfold completeOne
  split <;> exact ⟨rfl, rfl, rfl, rfl⟩

theorem completeOne_active (bid : Nat) (b : Booking) :
    isActive (completeOne bid b).status = true → isActive b.status = true := by
  unfold completeOne
  split
  · intro hx
    exact Bool.noConfusion hx
  · exact id

theorem overlapFree_cancel (s : List Booking) (bid : Nat) (r : Option String)
    (now : Int) (h : OverlapFree s) : OverlapFree (cancelBooking s bid r now).2 := by
  unfold cancelBooking
  split
  · exact h
  · split
    · exact overlapFree_map s (cancelOne bid r now)
        (fun b => (cancelOne_core bid r now b).1)
        (fun b => (cancelOne_core bid r now b).2.1)
        (fun b => (cancelOne_core bid r now b).2.2.1)
        (fun b => (cancelOne_core bid r now b).2.2.2)
        (cancelOne_active bid r now) h
    · exact h

theorem overlapFree_confirm (s : List Booking) (bid : Nat) (h : OverlapFree s) :
    OverlapFree (confirmBooking s bid).2 := by
  unfold confirmBooking
  split
  · exact h
  · split
    · exact overlapFree_map s (confirmOne bid)
        (fun b => (confirmOne_core bid b).1)
        (fun b => (confirmOne_core bid b).2.1)
        (fun b => (confirmOne_core bid b).2.2.1)
        (fun b => (confirmOne_core bid b).2.2.2)
        (confirmOne_active bid) h
    · exact h

theorem overlapFree_complete (s : List Booking) (bid : Nat) (h : OverlapFree s) :
    OverlapFree (completeBooking s bid).2 := by
  unfold completeBooking
  split
  · exact h
  · split
    · exact overlapFree_map s (completeOne bid)
        (fun b => (completeOne_core bid b).1)
        (fun b => (completeOne_core bid b).2.1)
        (fun b => (completeOne_core bid b).2.2.1)
        (fun b => (completeOne_core bid b).2.2.2)
        (completeOne_active bid) h
    · exact h

/-- C1: in every reachable state of the booking store, no two stored
bookings on the same (listingType, listingId) that both have active status
(pending or confirmed) have overlapping half-open date ranges; cancelled
and completed bookings are exempt. -/
theorem booking_store_overlap_free (reg : ListingType → Nat → Bool)
    (s : List Booking) (h : Reachable reg s) : OverlapFree s := by
  induction h with
  | empty => exact List.Pairwise.nil
  | create s nid bn inp _ ih => exact overlapFree_create reg nid bn s inp ih
  | cancel s bid reason now _ ih => exact overlapFree_cancel s bid reason now ih
  | confirm s bid _ ih => exact overlapFree_confirm s bid ih
  | complete s bid _ ih => exact overlapFree_complete s bid ih

theorem booking_store_overlap_free_witness :
    OverlapFree (createBooking reg0 21 "BK-2024-0021" [] inpA).2 :=
  booking_store_overlap_free reg0 _
    (Reachable.create [] 21 "BK-2024-0021" inpA Reachable.empty)

/-- C10 counterexample: the limit string 0 parses to the numeric value 0,
which lies outside the bounds 1 to 100, yet parsePaginationParams returns
limit 10 (the default, through the JavaScript falsy fallback), not the
clamped value 1 the claim calls for. -/
theorem pagination_zero_limit_not_clamped :
    jsParseInt "0" = some 0 ∧ ((0 : Int) < 1) ∧
    (parsePaginationParams none (some "0") 10).2 = 10 ∧ ((10 : Int) ≠ 1) := by
  refine ⟨by decide, by decide, by decide, by decide⟩

/-- C10 amended: the returned page is always at least 1 and the returned
limit always lies between 1 and 100; missing inputs yield the defaults page
1 and limit 10, and so do non-numeric inputs; an input parsing to a nonzero
value is clamped into the bounds; but an input parsing to 0 falls back to
the default (page 1, limit 10) through the JavaScript falsy test, which for
the limit yields 10 rather than the clamped value 1. -/
theorem pagination_params_spec (p l : Option String) (s : String) (v : Int) :
    (1 ≤ (parsePaginationParams p l 10).1 ∧ 1 ≤ (parsePaginationParams p l 10).2 ∧
      (parsePaginationParams p l 10).2 ≤ 100)
  ∧ parsePaginationParams none none 10 = (1, 10)
  ∧ (jsParseInt s = none → parsePaginationParams (some s) (some s) 10 = (1, 10))
  ∧ (jsParseInt s = some v → v ≠ 0 →
      (parsePaginationParams p (some s) 10).2 = min 100 (max 1 v) ∧
      (parsePaginationParams (some s) l 10).1 = max 1 v)
  ∧ (jsParseInt s = some 0 →
      (parsePaginationParams p (some s) 10).2 = 10 ∧
      (parsePaginationParams (some s) l 10).1 = 1) := by
  refine ⟨⟨?_, ?_, ?_⟩, rfl, ?_, ?_, ?_⟩
  · show 1 ≤ max 1 (jsOrInt (jsParseInt (jsOrStr p "1")) 1)
    exact le_max_left _ _
  · show 1 ≤ min 100 (max 1 _)
    exact le_min (by norm_num) (le_max_left _ _)
  · show min 100 (max 1 _) ≤ 100
    exact min_le_left _ _
  · intro hn
    by_cases hs : s = ""
    · subst hs
      rfl
    · simp only [parsePaginationParams, jsOrStr, if_neg hs, hn, jsOrInt]
      decide
  · intro hv hvne
    by_cases hs : s = ""
    · subst hs
      exact Option.noConfusion hv
    · constructor
      · simp only [parsePaginationParams, jsOrStr, if_neg hs, hv, jsOrInt,
          if_neg hvne]
      · simp only [parsePaginationParams, jsOrStr, if_neg hs, hv, jsOrInt,
          if_neg hvne]
  · intro hv
    by_cases hs : s = ""
    · subst hs
      exact Option.noConfusion hv
    · constructor
      · simp only [parsePaginationParams, jsOrStr, if_neg hs, hv, jsOrInt,
          if_pos rfl]
        decide
      · simp only [parsePaginationParams, jsOrStr, if_neg hs, hv, jsOrInt,
          if_pos rfl]
        decide

theorem pagination_params_spec_witness :
    (parsePaginationParams none (some "500") 10).2 = min 100 (max 1 500) ∧
    (parsePaginationParams (some "500") none 10).1 = max 1 500 :=
  (pagination_params_spec none none "500" 500).2.2.2.1 rfl (by decide)

end Booking2Proof
